import Mathlib

/-!
# Verification of the SmartInvoiceExtractor core pipeline

Shallow embedding of `src/smart_invoice_extractor.py`.

The Python core has three pieces:
* `extract_text_from_image` / `extract_text_from_pdf` — text resolution,
  calling the external libraries PIL, pytesseract, PyMuPDF and pdf2image;
* `auto_extract_fields` — a two-phase regex field extractor over the
  resolved text;
* `process_file` — per-document driver assembling the record.

External library behaviour (what OCR returns for an image, what the PDF
text layer contains, whether an image file can be decoded at all) is
modelled as oracle fields of a `Document` value.  Everything that is
genuine logic of the program — the five regular expressions with Python's
leftmost, greedy-with-backtracking matching semantics, `str.strip`,
`str.title`, `str.lower`, `str.split`, `float(...)` on the shapes that can
reach it, and `dict` insertion-order/overwrite semantics — is embedded
executably below, on ASCII text (the OCR language profile is English and
all patterns are ASCII).

Python exceptions (`PIL` decode errors, `float` `ValueError`) are embedded
as `Except String`: a thrown exception is an `Except.error` value, and a
function that cannot throw on any input simply never returns `.error`.
Numeric values produced by `float` are modelled as exact rationals.
-/

namespace SmartInvoice

/-- The characters Python's `str.strip()` (and `\s` in `re`) treats as
whitespace, restricted to ASCII. -/
def wsChar (c : Char) : Bool :=
  c == ' ' || c == '\t' || c == '\n' || c == '\r' || c == '\x0b' || c == '\x0c'

/-- Python `str.strip()` on a character list. -/
def stripList (l : List Char) : List Char :=
  ((l.dropWhile wsChar).reverse.dropWhile wsChar).reverse

/-- Python `str.strip()`. -/
def pyStrip (s : String) : String := ⟨stripList s.data⟩

/-- Python `str.lower()` (ASCII). -/
def pyLower (s : String) : String := ⟨s.data.map Char.toLower⟩

/-- Helper for `pyTitle`: the boolean records whether the previous
character was a cased (alphabetic) one. -/
def titleAux : Bool → List Char → List Char
  | _, [] => []
  | prevAlpha, c :: cs =>
    if c.isAlpha then
      (if prevAlpha then c.toLower else c.toUpper) :: titleAux true cs
    else
      c :: titleAux false cs

/-- Python `str.title()` (ASCII): the first letter of every maximal
letter run is uppercased, the following letters lowercased. -/
def pyTitle (s : String) : String := ⟨titleAux false s.data⟩

/-- Python `text.split("\n")` on a character list: split on every
newline, keeping empty pieces (so the result is never empty). -/
def splitNL : List Char → List (List Char)
  | [] => [[]]
  | c :: cs =>
    if c == '\n' then [] :: splitNL cs
    else
      match splitNL cs with
      | h :: t => (c :: h) :: t
      | [] => [[c]]

/-- Python `s.replace(",", "")`. -/
def stripCommas (s : String) : String := ⟨s.data.filter (fun c => c != ',')⟩

/-- Does `needle` occur at the start of `hay`? -/
def startsWithL : List Char → List Char → Bool
  | [], _ => true
  | _ :: _, [] => false
  | a :: as, b :: bs => a == b && startsWithL as bs

/-- Does `needle` occur contiguously anywhere in `hay`? -/
def infixOfL (needle : List Char) : List Char → Bool
  | [] => startsWithL needle []
  | c :: cs => startsWithL needle (c :: cs) || infixOfL needle cs

/-- `"tax invoice" in text.lower()` — ASCII-lowercased substring test. -/
def containsTaxInvoice (text : String) : Bool :=
  infixOfL "tax invoice".data (pyLower text).data

/-- Digits of a character list read as a natural number (the characters
are assumed to be ASCII digits). -/
def digitsToNat (l : List Char) : Nat :=
  l.foldl (fun a c => a * 10 + (c.toNat - 48)) 0

/-- Python `float(s)`, modelled as an exact rational, for the strings
that can reach the call site: the total-amount capture is `\d[\d,\.]*`
and commas have been removed, so `s` is a nonempty string of digits and
periods starting with a digit.  Python accepts such a string exactly when
it contains at most one period; otherwise `float` raises `ValueError`,
modelled as `none`. -/
def pyFloat? (s : String) : Option ℚ :=
  let l := s.data
  if l.isEmpty then none
  else if !(l.all fun c => c.isDigit || c == '.') then none
  else if !(l.any Char.isDigit) then none
  else if 1 < l.count '.' then none
  else
    let ip := l.takeWhile (fun c => c != '.')
    let fp := (l.dropWhile (fun c => c != '.')).drop 1
    some (mkRat (digitsToNat ip * 10 ^ fp.length + digitsToNat fp) (10 ^ fp.length))

/-!
## A tiny regex engine with Python `re` semantics

The five patterns of the extractor use only: single-character classes,
literals, greedy `*` / `+` / `{m,n}` over a character class, `?`,
alternation, and capture groups.  The engine below implements exactly
these with Python's strategy: alternatives are tried left to right,
quantifiers prefer the longest repetition and backtrack one repetition at
a time, `re.match` anchors at the start only, `re.search` tries start
positions left to right.
-/

/-- Regex abstract syntax.  Quantifiers apply to a character class, which
is all the source patterns need. -/
inductive RE where
  | eps : RE
  | cls : (Char → Bool) → RE
  | seq : RE → RE → RE
  | alt : RE → RE → RE
  | star : (Char → Bool) → RE
  | rep : (Char → Bool) → Nat → Nat → RE
  | group : Nat → RE → RE

/-- Capture environment: group index paired with the matched characters. -/
abbrev Caps := List (Nat × List Char)

/-- Length of the maximal prefix of `l` whose characters satisfy `p`. -/
def runLen (p : Char → Bool) : List Char → Nat
  | [] => 0
  | c :: cs => if p c then runLen p cs + 1 else 0

/-- Try `f hi`, `f (hi-1)`, …, `f (hi-n)` in that order, returning the
first success (greedy backtracking order for a quantifier). -/
def greedyTry (f : Nat → Option Caps) : Nat → Nat → Option Caps
  | hi, 0 => f hi
  | hi, n + 1 =>
    match f hi with
    | some r => some r
    | none => greedyTry f (hi - 1) n

/-- CPS matcher: match `r` against a prefix of `s` under captures `caps`,
then run the continuation `k` on the remaining suffix.  Backtracking is
realised by the continuation returning `none`. -/
def reMatch : RE → List Char → Caps → (List Char → Caps → Option Caps) → Option Caps
  | .eps, s, caps, k => k s caps
  | .cls p, s, caps, k =>
    match s with
    | [] => none
    | c :: cs => if p c then k cs caps else none
  | .seq a b, s, caps, k => reMatch a s caps fun s' caps' => reMatch b s' caps' k
  | .alt a b, s, caps, k =>
    match reMatch a s caps k with
    | some r => some r
    | none => reMatch b s caps k
  | .star p, s, caps, k =>
    let n := runLen p s
    greedyTry (fun i => k (s.drop i) caps) n n
  | .rep p lo hi, s, caps, k =>
    let n := min hi (runLen p s)
    if n < lo then none else greedyTry (fun i => k (s.drop i) caps) n (n - lo)
  | .group i r, s, caps, k =>
    reMatch r s caps fun s' caps' => k s' ((i, s.take (s.length - s'.length)) :: caps')

/-- `re.match`: attempt a match anchored at the start (no end anchor).
Returns the captures on success. -/
def reMatchAt (r : RE) (s : List Char) : Option Caps :=
  reMatch r s [] fun _ caps => some caps

/-- `re.search`: leftmost match — try each start position from the left. -/
def reSearch (r : RE) : List Char → Option Caps
  | [] => reMatchAt r []
  | c :: cs =>
    match reMatchAt r (c :: cs) with
    | some caps => some caps
    | none => reSearch r cs

/-- The characters matched by a capture group. -/
def capture (caps : Caps) (i : Nat) : Option (List Char) :=
  (caps.find? fun p => p.1 == i).map (·.2)

/-- A case-sensitive literal character. -/
def chrE (c : Char) : RE := .cls fun x => x == c

/-- A case-insensitive literal character (`re.I`). -/
def chrCI (c : Char) : RE := .cls fun x => x.toLower == c.toLower

/-- A case-insensitive literal string. -/
def strCI (s : String) : RE := s.data.foldr (fun c r => .seq (chrCI c) r) .eps

/-- `r?` — prefer matching `r`, fall back to empty. -/
def ropt (r : RE) : RE := .alt r .eps

/-- `p+` — greedy one-or-more of a character class. -/
def rplus (p : Char → Bool) : RE := .seq (.cls p) (.star p)

/-- `\s*`. -/
def wsStar : RE := .star wsChar

/-- The separator class `[:\-]`. -/
def sepChar (c : Char) : Bool := c == ':' || c == '-'

/-!
## The five patterns of `auto_extract_fields`
-/

/-- The class `[A-Za-z\s\.\-%/]` of the generic label. -/
def labelChar (c : Char) : Bool :=
  c.isAlpha || wsChar c || c == '.' || c == '-' || c == '%' || c == '/'

/-- `.` in a pattern without `re.DOTALL`: any character except newline. -/
def dotChar (c : Char) : Bool := c != '\n'

/-- The generic phase-1 pattern `([A-Za-z\s\.\-%/]+)\s*[:\-]\s*(.+)`,
used with `re.match`. -/
def reGeneric : RE :=
  .seq (.group 1 (rplus labelChar))
    (.seq wsStar (.seq (.cls sepChar) (.seq wsStar (.group 2 (rplus dotChar)))))

/-- The class `[A-Z0-9\/\-]` under `re.I` — both letter cases match. -/
def invNoChar (c : Char) : Bool :=
  c.isAlpha || c.isDigit || c == '/' || c == '-'

/-- `Invoice\s*No\.?\s*[:\-]?\s*([A-Z0-9\/\-]+)` with `re.I`,
used with `re.search`. -/
def reInvoiceNo : RE :=
  .seq (strCI "Invoice")
    (.seq wsStar
      (.seq (strCI "No")
        (.seq (ropt (chrE '.'))
          (.seq wsStar
            (.seq (ropt (.cls sepChar))
              (.seq wsStar (.group 1 (rplus invNoChar))))))))

/-- The date-component separator class `[/\-]`. -/
def dateSep (c : Char) : Bool := c == '/' || c == '-'

/-- `Invoice\s*Date\s*[:\-]?\s*(\d{1,2}[/\-]\d{1,2}[/\-]\d{4})` with `re.I`,
used with `re.search`. -/
def reInvoiceDate : RE :=
  .seq (strCI "Invoice")
    (.seq wsStar
      (.seq (strCI "Date")
        (.seq wsStar
          (.seq (ropt (.cls sepChar))
            (.seq wsStar
              (.group 1
                (.seq (.rep Char.isDigit 1 2)
                  (.seq (.cls dateSep)
                    (.seq (.rep Char.isDigit 1 2)
                      (.seq (.cls dateSep) (.rep Char.isDigit 4 4)))))))))))

/-- The class `[A-Za-z\s]`. -/
def alphaSpace (c : Char) : Bool := c.isAlpha || wsChar c

/-- `(Customer|Client|Bill\s*To)\s*Name?\s*[:\-]?\s*([A-Za-z\s]+)` with
`re.I`, used with `re.search`.  Note: `Name?` is the literal `Nam`
followed by an optional `e` — the `?` quantifies only the final letter. -/
def reCustomer : RE :=
  .seq (.group 1 (.alt (strCI "Customer")
                   (.alt (strCI "Client") (.seq (strCI "Bill") (.seq wsStar (strCI "To"))))))
    (.seq wsStar
      (.seq (strCI "Nam")
        (.seq (ropt (chrCI 'e'))
          (.seq wsStar
            (.seq (ropt (.cls sepChar))
              (.seq wsStar (.group 2 (rplus alphaSpace))))))))

/-- The class `[\d,\.]`. -/
def amtChar (c : Char) : Bool := c.isDigit || c == ',' || c == '.'

/-- `(Grand\s*Total|Total\s*Amount)\s*[:\-]?\s*(\d[\d,\.]*)` with `re.I`,
used with `re.search`. -/
def reTotal : RE :=
  .seq (.group 1 (.alt (.seq (strCI "Grand") (.seq wsStar (strCI "Total")))
                   (.seq (strCI "Total") (.seq wsStar (strCI "Amount")))))
    (.seq wsStar
      (.seq (ropt (.cls sepChar))
        (.seq wsStar
          (.group 2 (.seq (.cls Char.isDigit) (.star amtChar))))))

/-- `re.match(reGeneric, line)`, returning both capture groups. -/
def phase1Match (line : String) : Option (String × String) :=
  match reMatchAt reGeneric line.data with
  | none => none
  | some caps =>
    match capture caps 1, capture caps 2 with
    | some a, some b => some (⟨a⟩, ⟨b⟩)
    | _, _ => none

/-- `re.search(reInvoiceNo, text, re.I)`, returning `m.group(1)`. -/
def searchInvoiceNo (text : String) : Option String :=
  (reSearch reInvoiceNo text.data).bind fun caps => (capture caps 1).map (⟨·⟩)

/-- `re.search(reInvoiceDate, text, re.I)`, returning `m.group(1)`. -/
def searchInvoiceDate (text : String) : Option String :=
  (reSearch reInvoiceDate text.data).bind fun caps => (capture caps 1).map (⟨·⟩)

/-- `re.search(reCustomer, text, re.I)`, returning `m.group(2)`. -/
def searchCustomer (text : String) : Option String :=
  (reSearch reCustomer text.data).bind fun caps => (capture caps 2).map (⟨·⟩)

/-- `re.search(reTotal, text, re.I)`, returning `m.group(2)`. -/
def searchTotal (text : String) : Option String :=
  (reSearch reTotal text.data).bind fun caps => (capture caps 2).map (⟨·⟩)

/-!
## FieldMap: Python `dict` with insertion order
-/

/-- A field value: a string, or the number produced by `float`. -/
inductive FieldVal where
  | str : String → FieldVal
  | num : ℚ → FieldVal
deriving DecidableEq, Repr

/-- The extractor's result map, in insertion order. -/
abbrev FieldMap := List (String × FieldVal)

/-- Python `data[key] = value`: overwrite in place if the key is present
(keeping its position), otherwise append at the end.  Keys are unique in a
Python `dict`, so in-place update of the first occurrence is the exact
semantics. -/
def dictInsert : FieldMap → String → FieldVal → FieldMap
  | [], k, v => [(k, v)]
  | p :: t, k, v => if p.1 == k then (k, v) :: t else p :: dictInsert t k v

/-- Python `data.get(key)`. -/
def dictGet? : FieldMap → String → Option FieldVal
  | [], _ => none
  | p :: t, k => if p.1 == k then some p.2 else dictGet? t k

/-!
## `auto_extract_fields`
-/

/-- `[l.strip() for l in text.split("\n") if len(l.strip()) > 2]`. -/
def extractLines (text : String) : List String :=
  ((splitNL text.data).map fun l => (⟨stripList l⟩ : String)).filter
    fun l => 2 < l.length

/-- The body of the phase-1 loop for one line:
match `label sep value`, normalise, and insert when label and value are
short enough. -/
def phase1Step (data : FieldMap) (line : String) : FieldMap :=
  match phase1Match line with
  | none => data
  | some (g1, g2) =>
    let key := pyTitle (pyStrip g1)
    let value := pyStrip g2
    if key.length < 40 ∧ value.length < 120 then dictInsert data key (.str value)
    else data

/-- Phase 1 of `auto_extract_fields`: the generic `KEY : VALUE` line scan. -/
def phase1 (text : String) : FieldMap :=
  (extractLines text).foldl phase1Step []

/-- The `Invoice Number` targeted assignment. -/
def addInvoiceNo (text : String) (data : FieldMap) : FieldMap :=
  match searchInvoiceNo text with
  | some v => dictInsert data "Invoice No" (.str v)
  | none => data

/-- The `Invoice Date` targeted assignment. -/
def addInvoiceDate (text : String) (data : FieldMap) : FieldMap :=
  match searchInvoiceDate text with
  | some v => dictInsert data "Invoice Date" (.str v)
  | none => data

/-- The `Customer / Bill To` targeted assignment (`m.group(2).strip()`). -/
def addCustomer (text : String) (data : FieldMap) : FieldMap :=
  match searchCustomer text with
  | some v => dictInsert data "Customer Name" (.str (pyStrip v))
  | none => data

/-- The `Total Amount` targeted assignment:
`float(m.group(2).replace(",", ""))`.  A `float` failure is Python's
`ValueError`, which propagates. -/
def addTotal (text : String) (data : FieldMap) : Except String FieldMap :=
  match searchTotal text with
  | some v =>
    match pyFloat? (stripCommas v) with
    | some q => .ok (dictInsert data "Total Amount" (.num q))
    | none => .error "ValueError: could not convert string to float"
  | none => .ok data

/-- The `Invoice Type` assignment. -/
def addInvoiceType (text : String) (data : FieldMap) : FieldMap :=
  if containsTaxInvoice text then dictInsert data "Invoice Type" (.str "Tax Invoice")
  else data

/-- `auto_extract_fields(text)` from the source: phase-1 generic scan,
then the four targeted assignments, then the tax-invoice flag.  The only
possible exception is the `float` `ValueError` in the total-amount step. -/
def auto_extract_fields (text : String) : Except String FieldMap :=
  match addTotal text (addCustomer text (addInvoiceDate text (addInvoiceNo text (phase1 text)))) with
  | .ok d => .ok (addInvoiceType text d)
  | .error e => .error e

/-!
## Documents and `process_file`
-/

/-- A document together with the oracle behaviour of the external
libraries on it:
* `pdfOk` — whether `fitz.open` / `convert_from_path` succeed on it;
* `pdfPages` — the text layer `page.get_text()` of each page, in order;
* `pdfOcr` — the OCR output `pytesseract.image_to_string` for each
  rendered page, in order;
* `imageOk` — whether `Image.open` can decode the file;
* `imageOcr` — the OCR output for the (grayscaled, contrast-enhanced)
  image. -/
structure Document where
  path : String
  pdfOk : Bool := true
  pdfPages : List String := []
  pdfOcr : List String := []
  imageOk : Bool := true
  imageOcr : String := ""

/-- `text = ""` then `text += piece` over a list, as in the source's loops. -/
def joinList (l : List String) : String := l.foldl (fun a b => a ++ b) ""

/-- `extract_text_from_image(path)`: decode, grayscale, enhance contrast,
OCR.  A file PIL cannot decode raises (no handler in the source). -/
def extract_text_from_image (d : Document) : Except String String :=
  if d.imageOk then .ok d.imageOcr else .error "PIL.UnidentifiedImageError"

/-- `extract_text_from_pdf(path)`: concatenate the text layer of all
pages; if the stripped result has fewer than 100 characters, OCR every
rendered page and append the OCR output. -/
def extract_text_from_pdf (d : Document) : Except String String :=
  if d.pdfOk then
    let text := joinList d.pdfPages
    if (pyStrip text).length < 100 then .ok (text ++ joinList d.pdfOcr)
    else .ok text
  else .error "fitz.FileDataError"

/-- `os.path.basename` (POSIX). -/
def pyBasename (p : String) : String :=
  match (splitNL (p.data.map fun c => if c == '/' then '\n' else c)).getLast? with
  | some l => ⟨l⟩
  | none => p

/-- `path.lower().endswith(".pdf")`. -/
def isPdfPath (p : String) : Bool :=
  startsWithL ".pdf".data.reverse (pyLower p).data.reverse

/-- `process_file(path)` from the source: resolve text by format class,
return an `OCR Failed` record on whitespace-only text, otherwise extract
fields and stamp `Filename` and `Status`. -/
def process_file (d : Document) : Except String FieldMap :=
  match (if isPdfPath d.path then extract_text_from_pdf d else extract_text_from_image d) with
  | .error e => .error e
  | .ok text =>
    if pyStrip text = "" then
      .ok [("Filename", FieldVal.str (pyBasename d.path)), ("Status", FieldVal.str "OCR Failed")]
    else
      match auto_extract_fields text with
      | .ok data =>
        .ok (dictInsert (dictInsert data "Filename" (FieldVal.str (pyBasename d.path)))
              "Status" (FieldVal.str "Success"))
      | .error e => .error e

/-- Convenience accessor for closed statements: the field under `k` when
`e` is a returned map, `none` when an exception was raised. -/
def getField (e : Except String FieldMap) (k : String) : Option FieldVal :=
  match e with
  | .ok m => dictGet? m k
  | .error _ => none

/-- Did the computation raise an (uncaught) exception? -/
def throws (e : Except String FieldMap) : Bool :=
  match e with
  | .ok _ => false
  | .error _ => true

/-- The returned map of a computation that did not raise (the empty map
as a placeholder when it did). -/
def okMap (e : Except String FieldMap) : FieldMap :=
  match e with
  | .ok m => m
  | .error _ => []

/-!
## Lemmas about the dictionary operations
-/

theorem dictGet_insert_self (m : FieldMap) (k : String) (v : FieldVal) :
    dictGet? (dictInsert m k v) k = some v := by
  induction m with
  | nil => simp [dictInsert, dictGet?]
  | cons a t ih =>
    by_cases ha : (a.1 == k) = true
    · simp [dictInsert, dictGet?, ha]
    · simp [dictInsert, dictGet?, ha, ih]

theorem dictGet_insert_ne (m : FieldMap) (k k' : String) (v : FieldVal)
    (h : k' ≠ k) :
    dictGet? (dictInsert m k v) k' = dictGet? m k' := by
  have hkk' : (k == k') = false := by
    rw [beq_eq_false_iff_ne]
    exact fun hk => h hk.symm
  induction m with
  | nil => simp [dictInsert, dictGet?, hkk']
  | cons a t ih =>
    by_cases ha : (a.1 == k) = true
    · have ha' : (a.1 == k') = false := by
        rw [beq_eq_false_iff_ne]
        intro hk'
        exact h (hk'.symm.trans (eq_of_beq ha))
      simp [dictInsert, dictGet?, ha, ha', hkk']
    · by_cases ha' : (a.1 == k') = true
      · simp [dictInsert, dictGet?, ha, ha']
      · simp [dictInsert, dictGet?, ha, ha', ih]

/-!
## Lemmas about the individual extraction steps
-/

theorem get_addInvoiceNo_hit (t : String) (m : FieldMap) (v : String)
    (h : searchInvoiceNo t = some v) :
    dictGet? (addInvoiceNo t m) "Invoice No" = some (.str v) := by
  unfold addInvoiceNo
  rw [h]
  exact dictGet_insert_self ..

theorem get_addInvoiceDate_ne (t : String) (m : FieldMap) (k : String)
    (h : k ≠ "Invoice Date") :
    dictGet? (addInvoiceDate t m) k = dictGet? m k := by
  unfold addInvoiceDate
  cases searchInvoiceDate t with
  | none => rfl
  | some v => exact dictGet_insert_ne m _ k _ h

theorem get_addCustomer_ne (t : String) (m : FieldMap) (k : String)
    (h : k ≠ "Customer Name") :
    dictGet? (addCustomer t m) k = dictGet? m k := by
  unfold addCustomer
  cases searchCustomer t with
  | none => rfl
  | some v => exact dictGet_insert_ne m _ k _ h

theorem get_addTotal_ne (t : String) (m m' : FieldMap) (k : String)
    (h : addTotal t m = .ok m') (hk : k ≠ "Total Amount") :
    dictGet? m' k = dictGet? m k := by
  unfold addTotal at h
  cases hs : searchTotal t with
  | none =>
    simp only [hs] at h
    cases h
    rfl
  | some v =>
    simp only [hs] at h
    cases hq : pyFloat? (stripCommas v) with
    | none => simp [hq] at h
    | some q =>
      simp only [hq] at h
      cases h
      exact dictGet_insert_ne m _ k _ hk

theorem get_addInvoiceType_ne (t : String) (m : FieldMap) (k : String)
    (h : k ≠ "Invoice Type") :
    dictGet? (addInvoiceType t m) k = dictGet? m k := by
  unfold addInvoiceType
  by_cases hc : containsTaxInvoice t
  · rw [if_pos hc]
    exact dictGet_insert_ne m _ k _ h
  · rw [if_neg hc]

instance {ε α : Type} [DecidableEq ε] [DecidableEq α] :
    DecidableEq (Except ε α) := fun a b =>
  match a, b with
  | .ok x, .ok y =>
    if h : x = y then .isTrue (by rw [h]) else .isFalse (by intro hc; cases hc; exact h rfl)
  | .ok _, .error _ => .isFalse (by intro hc; cases hc)
  | .error _, .ok _ => .isFalse (by intro hc; cases hc)
  | .error x, .error y =>
    if h : x = y then .isTrue (by rw [h]) else .isFalse (by intro hc; cases hc; exact h rfl)

/-!
## The claims
-/

/-- Claim C3 (code defect): the spec requires a total-amount match whose
value cannot be parsed as a number after comma removal to be surfaced to
the caller without crashing, and `extract(text)` to never fail; but on
the text `"Total Amount: 1.2.3"` the pattern captures `"1.2.3"` and
`float("1.2.3")` raises an uncaught `ValueError`, so `auto_extract_fields`
raises instead of returning a map — aborting the whole batch. -/
theorem auto_extract_fields_raises_on_malformed_total :
    auto_extract_fields "Total Amount: 1.2.3"
      = Except.error "ValueError: could not convert string to float" := by decide

/-- Claim C5 (confirmed): whenever the targeted invoice-number pattern
matches the text with captured value `v`, the returned map carries
`"Invoice No" = v` — the targeted assignment runs after phase 1 and
unconditionally overwrites any phase-1 entry under the same key, and no
later step touches the key. -/
theorem targeted_invoice_no_overrides (text v : String) (m : FieldMap)
    (hs : searchInvoiceNo text = some v)
    (hm : auto_extract_fields text = Except.ok m) :
    dictGet? m "Invoice No" = some (.str v) := by
  unfold auto_extract_fields at hm
  cases ht : addTotal text (addCustomer text (addInvoiceDate text
      (addInvoiceNo text (phase1 text)))) with
  | error e => simp [ht] at hm
  | ok d =>
    simp only [ht] at hm
    cases hm
    rw [get_addInvoiceType_ne _ _ _ (by decide),
      get_addTotal_ne _ _ _ _ ht (by decide),
      get_addCustomer_ne _ _ _ (by decide),
      get_addInvoiceDate_ne _ _ _ (by decide)]
    exact get_addInvoiceNo_hit _ _ _ hs

/-- Witness for C5 at a text whose generic phase-1 scan stores
`"Invoice No" = "B-2"` from its second line while the targeted pattern
captures `"A/1"` from the first: the targeted value wins. -/
theorem targeted_invoice_no_overrides_witness :
    dictGet? (phase1 "Invoice No.: A/1\nInvoice No: B-2") "Invoice No"
        = some (.str "B-2") ∧
    dictGet? (okMap (auto_extract_fields "Invoice No.: A/1\nInvoice No: B-2"))
        "Invoice No" = some (.str "A/1") :=
  ⟨by decide,
    targeted_invoice_no_overrides "Invoice No.: A/1\nInvoice No: B-2" "A/1"
      (okMap (auto_extract_fields "Invoice No.: A/1\nInvoice No: B-2"))
      (by decide) (by rfl)⟩

/-- Claim C4 (confirmed): for a readable PDF the resolver concatenates
the text layer of all pages; exactly when the stripped concatenation has
fewer than 100 characters it appends the OCR output of every rendered
page after the text-layer content, and otherwise returns the text layer
alone — one whole-document decision. -/
theorem extract_text_from_pdf_threshold (d : Document) (hok : d.pdfOk = true) :
    ((pyStrip (joinList d.pdfPages)).length < 100 →
      extract_text_from_pdf d
        = .ok (joinList d.pdfPages ++ joinList d.pdfOcr)) ∧
    (100 ≤ (pyStrip (joinList d.pdfPages)).length →
      extract_text_from_pdf d = .ok (joinList d.pdfPages)) := by
  unfold extract_text_from_pdf
  rw [hok]
  constructor
  · intro h
    rw [if_pos rfl, if_pos h]
  · intro h
    rw [if_pos rfl, if_neg (by omega)]

/-- A scanned PDF whose text layer strips to exactly 99 characters. -/
def pdfDoc99 : Document :=
  { path := "scan.pdf"
    pdfPages := ["aaaaaaaaaaaaaaaaaaaaaaaaaaaaaaaaaaaaaaaaaaaaaaaaaaaaaaaaaaaaaaaaaaaaaaaaaaaaaaaaaaaaaaaaaaaaaaaaaaa"]
    pdfOcr := ["OCR OUTPUT"] }

/-- A digital PDF whose text layer strips to exactly 100 characters. -/
def pdfDoc100 : Document :=
  { path := "digital.pdf"
    pdfPages := ["aaaaaaaaaaaaaaaaaaaaaaaaaaaaaaaaaaaaaaaaaaaaaaaaaaaaaaaaaaaaaaaaaaaaaaaaaaaaaaaaaaaaaaaaaaaaaaaaaaaa"]
    pdfOcr := ["OCR OUTPUT"] }

/-- Witness for C4 at the threshold: 99 stripped characters trigger the
OCR fallback, 100 do not. -/
theorem extract_text_from_pdf_threshold_witness :
    extract_text_from_pdf pdfDoc99
        = .ok (joinList pdfDoc99.pdfPages ++ joinList pdfDoc99.pdfOcr) ∧
    extract_text_from_pdf pdfDoc100 = .ok (joinList pdfDoc100.pdfPages) :=
  ⟨(extract_text_from_pdf_threshold pdfDoc99 rfl).1 (by decide),
   (extract_text_from_pdf_threshold pdfDoc100 rfl).2 (by decide)⟩

/-- Claim C6 (refuted as stated): the word `Name` after the customer
label is not optional — in the pattern `Name?` only the final `e` is
optional — so the text `"Customer: Acme Corp"` yields no `Customer Name`
field at all; the generic phase stores the value under the key
`Customer` instead. -/
theorem customer_without_name_label_not_extracted :
    getField (auto_extract_fields "Customer: Acme Corp") "Customer Name" = none ∧
    getField (auto_extract_fields "Customer: Acme Corp") "Customer"
      = some (.str "Acme Corp") :=
  ⟨by decide, by decide⟩

/-- Claim C6 (amended): for texts where one of the labels `Customer`,
`Client` or `Bill To` is followed by `Nam` with an optional trailing `e`
(the pattern `Name?` quantifies only the final letter), an optional
separator and a value of letters and whitespace, the key
`Customer Name` holds that captured value stripped. -/
theorem customer_name_requires_nam_label (text v : String) (m : FieldMap)
    (hs : searchCustomer text = some v)
    (hm : auto_extract_fields text = Except.ok m) :
    dictGet? m "Customer Name" = some (.str (pyStrip v)) := by
  unfold auto_extract_fields at hm
  cases ht : addTotal text (addCustomer text (addInvoiceDate text
      (addInvoiceNo text (phase1 text)))) with
  | error e => simp [ht] at hm
  | ok d =>
    simp only [ht] at hm
    cases hm
    rw [get_addInvoiceType_ne _ _ _ (by decide),
      get_addTotal_ne _ _ _ _ ht (by decide)]
    unfold addCustomer
    rw [hs]
    exact dictGet_insert_self ..

/-- Witness for the amended C6: `"Customer Name: Acme Corp"` does set
`Customer Name = "Acme Corp"`. -/
theorem customer_name_requires_nam_label_witness :
    dictGet? (okMap (auto_extract_fields "Customer Name: Acme Corp"))
      "Customer Name" = some (.str (pyStrip "Acme Corp")) :=
  customer_name_requires_nam_label "Customer Name: Acme Corp" "Acme Corp"
    (okMap (auto_extract_fields "Customer Name: Acme Corp"))
    (by decide) (by rfl)

/-- Claim C7 (confirmed): whenever the total-amount pattern captures `v`
and `v` with commas removed parses as the number `q`, the returned map
stores `Total Amount` as the numeric value `q` — commas are stripped
before conversion and the stored value is a number, not a string. -/
theorem total_amount_numeric_normalization (text v : String) (q : ℚ)
    (m : FieldMap)
    (hs : searchTotal text = some v)
    (hq : pyFloat? (stripCommas v) = some q)
    (hm : auto_extract_fields text = Except.ok m) :
    dictGet? m "Total Amount" = some (.num q) := by
  unfold auto_extract_fields at hm
  cases ht : addTotal text (addCustomer text (addInvoiceDate text
      (addInvoiceNo text (phase1 text)))) with
  | error e => simp [ht] at hm
  | ok d =>
    simp only [ht] at hm
    cases hm
    rw [get_addInvoiceType_ne _ _ _ (by decide)]
    unfold addTotal at ht
    simp only [hs, hq] at ht
    cases ht
    exact dictGet_insert_self ..

/-- Witness for C7: the captured value `"12,345.67"` is stored as the
number `12345.67`. -/
theorem total_amount_numeric_normalization_witness :
    searchTotal "Total Amount: 12,345.67" = some "12,345.67" ∧
    dictGet? (okMap (auto_extract_fields "Total Amount: 12,345.67"))
      "Total Amount" = some (.num (mkRat 1234567 100)) :=
  ⟨by decide,
    total_amount_numeric_normalization "Total Amount: 12,345.67" "12,345.67"
      (mkRat 1234567 100)
      (okMap (auto_extract_fields "Total Amount: 12,345.67"))
      (by decide) (by decide) (by rfl)⟩

/-- Claim C8 (confirmed): a phase-1 match is inserted into the map
exactly when the stripped, title-cased label has length strictly below
40 and the stripped value has length strictly below 120. -/
theorem phase1_length_bounds (line g1 g2 : String)
    (h : phase1Match line = some (g1, g2)) :
    (dictGet? (phase1Step [] line) (pyTitle (pyStrip g1))
        = some (.str (pyStrip g2)))
      ↔ ((pyTitle (pyStrip g1)).length < 40 ∧ (pyStrip g2).length < 120) := by
  unfold phase1Step
  simp only [h]
  by_cases hc : (pyTitle (pyStrip g1)).length < 40 ∧ (pyStrip g2).length < 120
  · rw [if_pos hc]
    exact ⟨fun _ => hc, fun _ => dictGet_insert_self ..⟩
  · rw [if_neg hc]
    exact ⟨fun hx => Option.noConfusion hx, fun hx => absurd hx hc⟩

/-- Witness for C8 at the boundary: a 39-character label (matching the
label shape) is accepted, a 40-character label is rejected. -/
theorem phase1_length_bounds_witness :
    (dictGet? (phase1Step [] "aaaaaaaaaaaaaaaaaaaaaaaaaaaaaaaaaaaaaaa: v")
        (pyTitle (pyStrip "aaaaaaaaaaaaaaaaaaaaaaaaaaaaaaaaaaaaaaa"))
        = some (.str (pyStrip "v"))) ∧
    ¬ (dictGet? (phase1Step [] "aaaaaaaaaaaaaaaaaaaaaaaaaaaaaaaaaaaaaaaa: v")
        (pyTitle (pyStrip "aaaaaaaaaaaaaaaaaaaaaaaaaaaaaaaaaaaaaaaa"))
        = some (.str (pyStrip "v"))) :=
  ⟨(phase1_length_bounds "aaaaaaaaaaaaaaaaaaaaaaaaaaaaaaaaaaaaaaa: v"
      "aaaaaaaaaaaaaaaaaaaaaaaaaaaaaaaaaaaaaaa" "v" (by decide)).mpr (by decide),
   fun hx =>
    absurd ((phase1_length_bounds "aaaaaaaaaaaaaaaaaaaaaaaaaaaaaaaaaaaaaaaa: v"
      "aaaaaaaaaaaaaaaaaaaaaaaaaaaaaaaaaaaaaaaa" "v" (by decide)).mp hx)
      (by decide)⟩

/-- Claim C1 (refuted as stated): `process_file` does not return a
record for every document — on an image whose OCR text is
`"Total Amount: 1.2.3"` the extractor's `float` call raises an uncaught
`ValueError`, which propagates out of `process_file`, so no record at
all is produced for that document. -/
theorem process_file_raises_on_malformed_total :
    process_file { path := "inv.png", imageOcr := "Total Amount: 1.2.3" }
      = Except.error "ValueError: could not convert string to float" := by decide

/-- Claim C1 (amended): whenever `process_file` returns (no exception was
raised by resolution or numeric parsing), it returns exactly one record
(the return type carries a single map), that record's `Filename` is the
document's base filename, and its `Status` is `Success` or
`OCR Failed`. -/
theorem process_file_record_keys (d : Document) (m : FieldMap)
    (hm : process_file d = Except.ok m) :
    dictGet? m "Filename" = some (.str (pyBasename d.path)) ∧
    (dictGet? m "Status" = some (.str "Success") ∨
     dictGet? m "Status" = some (.str "OCR Failed")) := by
  unfold process_file at hm
  cases hr : (if isPdfPath d.path then extract_text_from_pdf d
      else extract_text_from_image d) with
  | error e => simp [hr] at hm
  | ok text =>
    simp only [hr] at hm
    by_cases hstrip : pyStrip text = ""
    · rw [if_pos hstrip] at hm
      cases hm
      refine ⟨?_, Or.inr ?_⟩
      · simp [dictGet?]
      · simp [dictGet?, show (("Filename" : String) == "Status") = false by decide]
    · rw [if_neg hstrip] at hm
      cases hx : auto_extract_fields text with
      | error e => simp [hx] at hm
      | ok data =>
        simp only [hx] at hm
        cases hm
        refine ⟨?_, Or.inl ?_⟩
        · rw [dictGet_insert_ne _ _ _ _ (by decide)]
          exact dictGet_insert_self ..
        · exact dictGet_insert_self ..

/-- Witness for the amended C1 on a document that resolves and extracts
successfully. -/
theorem process_file_record_keys_witness :
    dictGet? (okMap (process_file { path := "in/a.png", imageOcr := "Ref: 7" }))
        "Filename" = some (.str (pyBasename "in/a.png")) ∧
    (dictGet? (okMap (process_file { path := "in/a.png", imageOcr := "Ref: 7" }))
        "Status" = some (.str "Success") ∨
     dictGet? (okMap (process_file { path := "in/a.png", imageOcr := "Ref: 7" }))
        "Status" = some (.str "OCR Failed")) :=
  process_file_record_keys { path := "in/a.png", imageOcr := "Ref: 7" }
    (okMap (process_file { path := "in/a.png", imageOcr := "Ref: 7" })) (by rfl)

/-- Claim C2 (refuted as stated): image text resolution can fail — the
source wraps `Image.open` in no handler, so an unreadable or corrupt
image raises, the exception propagates out of `process_file`, and no
`OCR Failed` record is produced for that document. -/
theorem extract_text_from_image_raises_on_unreadable :
    extract_text_from_image { path := "bad.jpg", imageOk := false }
        = Except.error "PIL.UnidentifiedImageError" ∧
    process_file { path := "bad.jpg", imageOk := false }
        = Except.error "PIL.UnidentifiedImageError" :=
  ⟨by decide, by decide⟩

/-- Claim C2 (amended): when the image can be decoded, resolution
returns exactly the OCR engine's string; if that string strips to empty,
the caller returns the record containing exactly `Filename` and
`Status = "OCR Failed"` and nothing else.  When the image cannot be
decoded, the exception propagates (see the counterexample). -/
theorem process_file_ocr_failed_record (d : Document)
    (hp : isPdfPath d.path = false) (hok : d.imageOk = true)
    (hs : pyStrip d.imageOcr = "") :
    process_file d
      = .ok [("Filename", .str (pyBasename d.path)),
             ("Status", .str "OCR Failed")] := by
  unfold process_file extract_text_from_image
  simp only [hp, hok, Bool.false_eq_true, if_false, if_true]
  rw [if_pos hs]

/-- Witness for the amended C2 on a corrupt-scan image whose OCR output
is whitespace only. -/
theorem process_file_ocr_failed_record_witness :
    process_file { path := "b/blank.png", imageOcr := "  \n " }
      = .ok [("Filename", .str (pyBasename "b/blank.png")),
             ("Status", .str "OCR Failed")] :=
  process_file_ocr_failed_record { path := "b/blank.png", imageOcr := "  \n " }
    (by decide) rfl (by decide)

/-- Claim C9 (confirmed): `Filename` and `Status` are stamped onto the
record after field extraction, so even when the document text yields
extracted fields named `Filename` or `Status`, the final record carries
the actual base filename and `Status = "Success"`. -/
theorem filename_status_stamped_after_extraction (d : Document)
    (text : String) (data m : FieldMap)
    (hr : (if isPdfPath d.path then extract_text_from_pdf d
        else extract_text_from_image d) = .ok text)
    (hne : ¬ pyStrip text = "")
    (hx : auto_extract_fields text = .ok data)
    (hm : process_file d = Except.ok m) :
    dictGet? m "Filename" = some (.str (pyBasename d.path)) ∧
    dictGet? m "Status" = some (.str "Success") := by
  unfold process_file at hm
  simp only [hr] at hm
  rw [if_neg hne] at hm
  simp only [hx] at hm
  cases hm
  constructor
  · rw [dictGet_insert_ne _ _ _ _ (by decide)]
    exact dictGet_insert_self ..
  · exact dictGet_insert_self ..

/-- Witness for C9 on a document whose text contains a `Status: pending`
line: the phase-1 extractor stores `Status = "pending"`, yet the final
record's `Status` is `Success` and its `Filename` is the base name. -/
theorem filename_status_stamped_after_extraction_witness :
    dictGet? (phase1 "Status: pending") "Status" = some (.str "pending") ∧
    (dictGet? (okMap (process_file { path := "inv/x.png", imageOcr := "Status: pending" }))
        "Filename" = some (.str (pyBasename "inv/x.png")) ∧
     dictGet? (okMap (process_file { path := "inv/x.png", imageOcr := "Status: pending" }))
        "Status" = some (.str "Success")) :=
  ⟨by decide,
    filename_status_stamped_after_extraction
      { path := "inv/x.png", imageOcr := "Status: pending" }
      "Status: pending"
      (okMap (auto_extract_fields "Status: pending"))
      (okMap (process_file { path := "inv/x.png", imageOcr := "Status: pending" }))
      (by rfl) (by decide) (by rfl) (by rfl)⟩

/-- Claim C10 (refuted as stated): on `"Invoice Number: 123"` the
targeted invoice-number pattern does not match at all — the literal `No`
fails against the `Nu` of `Number` — so no `Invoice No` key is produced
(the generic phase stores the value under `Invoice Number`), rather than
`Invoice No = "umber"` as claimed. -/
theorem invoice_number_word_no_match :
    getField (auto_extract_fields "Invoice Number: 123") "Invoice No" = none ∧
    searchInvoiceNo "Invoice Number: 123" = none :=
  ⟨by decide, by decide⟩

/-- Claim C10 (amended): the pattern indeed requires no word boundary
after the label and no separator before the value, so it can capture a
fragment of a surrounding word: on `"Invoice Note: ABC"` it matches
`Invoice No` inside `Invoice Note` and sets `Invoice No = "te"`, the
letters of `Note` after the matched prefix.  But on
`"Invoice Number: 123"` it does not match at all (see the
counterexample), because `No` fails against `Nu`. -/
theorem invoice_no_captures_fragment :
    getField (auto_extract_fields "Invoice Note: ABC") "Invoice No"
        = some (.str "te") ∧
    getField (auto_extract_fields "Invoice Note: ABC") "Invoice Note"
        = some (.str "ABC") :=
  ⟨by decide, by decide⟩

end SmartInvoice
